import Mathlib

/-!
Verification of the difference-highlighting and tooltip-assembly logic of the
`spotify_confidence` bokeh grapher, together with the `ChartGrid.show` dispatch.

The embedding follows `spotify_confidence/analysis/frequentist/bokeh_grapher.py`
and `spotify_confidence/chartgrid.py`.  Numeric cell values are rationals;
possibly non-finite confidence bounds are an explicit sum type `XFloat`.
-/

namespace Confidence

/-- Column-name constant `DIFFERENCE` from the constants module. -/
def DIFFERENCE : String := "difference"

/-- Column-name constant `CI_LOWER` (the literal `"ci_lower"` also appears in
`_categorical_summary_plot`). -/
def CI_LOWER : String := "ci_lower"

/-- Column-name constant `CI_UPPER` (the literal `"ci_upper"` also appears in
`_categorical_summary_plot`). -/
def CI_UPPER : String := "ci_upper"

/-- Modelled from the spec: the constants module is not under `src/`; the
adjusted-interval lower column name used when adjusted intervals are requested. -/
def ADJUSTED_LOWER : String := "adjusted ci_lower"

/-- Modelled from the spec: the constants module is not under `src/`; the
adjusted-interval upper column name used when adjusted intervals are requested. -/
def ADJUSTED_UPPER : String := "adjusted ci_upper"

/-- A possibly non-finite numeric cell (confidence bounds may be infinite before
clamping). -/
inductive XFloat where
  | finite (q : ℚ)
  | posInf
  | negInf
deriving DecidableEq, Repr

/-- Modelled from the spec: `to_finite` is imported from `confidence_utils`,
which is not under `src/`.  Per spec §7, non-finite values clamp to the
caller-supplied finite bounds (the computed axis minimum and maximum). -/
def to_finite (v : XFloat) (y_min y_max : ℚ) : ℚ :=
  match v with
  | .finite q => q
  | .negInf => y_min
  | .posInf => y_max

/-- The per-row significance classifier: the `color_column` lambda of
`_categorical_difference_chart` (bokeh_grapher.py lines 267-277).
Returns `"red"` when `lower_bound < null_hypothesis and preference == "increase"
or null_hypothesis < upper_bound and preference == "decrease"`, else `"green"`. -/
def classify (lower_bound upper_bound null_hypothesis : ℚ) (preference : String) : String :=
  if (lower_bound < null_hypothesis ∧ preference = "increase")
      ∨ (null_hypothesis < upper_bound ∧ preference = "decrease")
  then "red" else "green"

/-- A comparison row as consumed by `_categorical_difference_chart`: lower and
upper confidence bound (possibly non-finite before clamping), the optional
null-hypothesis value (spec §3 and the glossary identify the `NIM` column with
the null hypothesis: both are defined on exactly the same rows), and the
preference string. -/
structure Row where
  lower_bound : XFloat
  upper_bound : XFloat
  null_hypothesis : Option ℚ
  preference : String
deriving DecidableEq, Repr

/-- A row after the `to_finite` clamping step: bounds are finite rationals. -/
structure FiniteRow where
  lower_bound : ℚ
  upper_bound : ℚ
  null_hypothesis : Option ℚ
  preference : String
deriving DecidableEq, Repr

/-- The clamping step of `_categorical_difference_chart` (lines 237-239):
`df.assign(LOWER = to_finite(...)).assign(UPPER = to_finite(...))`. -/
def clampRow (y_min y_max : ℚ) (r : Row) : FiniteRow :=
  { lower_bound := to_finite r.lower_bound y_min y_max
    upper_bound := to_finite r.upper_bound y_min y_max
    null_hypothesis := r.null_hypothesis
    preference := r.preference }

/-- The color assigned to one (already clamped) row with a defined null
hypothesis; on the filtered rows `getD` reads the defined value. -/
def rowColor (r : FiniteRow) : String :=
  classify r.lower_bound r.upper_bound (r.null_hypothesis.getD 0) r.preference

/-- The classification performed by `_categorical_difference_chart`
(lines 237-280): clamp the bounds, then, when some row has a defined null
hypothesis (`df[NIM].notna().any()`), color exactly the rows with a defined
null hypothesis (`df[~df[NIM].isna()]`); otherwise no `dash` glyph is drawn
and no row is classified. -/
def chartColors (y_min y_max : ℚ) (rows : List Row) : List (FiniteRow × String) :=
  let df := rows.map (clampRow y_min y_max)
  if df.any (fun r => r.null_hypothesis.isSome) then
    (df.filter (fun r => r.null_hypothesis.isSome)).map (fun r => (r, rowColor r))
  else []

/-- Claim C1: with preference `"increase"`, the classifier returns the adverse
label `"red"` iff the lower bound is strictly below the null hypothesis and the
neutral label `"green"` otherwise; in particular
`classify 0.01 0.05 0.02 "increase" = "red"` and
`classify 0.03 0.05 0.02 "increase" = "green"`. -/
theorem classify_increase_red_iff (lb ub nh : ℚ) :
    (classify lb ub nh "increase" = "red" ↔ lb < nh)
      ∧ (classify lb ub nh "increase" = "green" ↔ ¬ lb < nh)
      ∧ classify (1/100) (5/100) (2/100) "increase" = "red"
      ∧ classify (3/100) (5/100) (2/100) "increase" = "green" := by
  refine ⟨?_, ?_, ?_, ?_⟩
  · unfold classify
    split <;> rename_i h <;>
      simp only [String.reduceEq, and_true, and_false, or_false, false_or] at h ⊢ <;>
      simp [h]
  · unfold classify
    split <;> rename_i h <;>
      simp only [String.reduceEq, and_true, and_false, or_false, false_or] at h ⊢ <;>
      simp [h]
  · unfold classify
    rw [if_pos]
    exact Or.inl ⟨by norm_num, rfl⟩
  · unfold classify
    rw [if_neg]
    rintro (⟨h, _⟩ | ⟨_, h⟩)
    · norm_num at h
    · exact absurd h (by decide)

/-- Claim C2: with preference `"decrease"`, the classifier returns the adverse
label `"red"` iff the null hypothesis is strictly below the upper bound and the
neutral label `"green"` otherwise. -/
theorem classify_decrease_red_iff (lb ub nh : ℚ) :
    (classify lb ub nh "decrease" = "red" ↔ nh < ub)
      ∧ (classify lb ub nh "decrease" = "green" ↔ ¬ nh < ub) := by
  refine ⟨?_, ?_⟩ <;>
  · unfold classify
    split <;> rename_i h <;>
      simp only [String.reduceEq, and_true, and_false, or_false, false_or] at h ⊢ <;>
      simp [h]

/-- Claim C9: with any preference other than `"increase"` and `"decrease"`
(e.g. `"two-sided"`), the classifier returns `"green"` regardless of the
bounds and the null-hypothesis value. -/
theorem classify_other_preference_green (lb ub nh : ℚ) (p : String)
    (hinc : p ≠ "increase") (hdec : p ≠ "decrease") :
    classify lb ub nh p = "green" := by
  unfold classify
  rw [if_neg]
  rintro (⟨_, h⟩ | ⟨_, h⟩)
  · exact hinc h
  · exact hdec h

/-- Witness for C9 at `classify 0 1 0 "two-sided"`. -/
theorem classify_other_preference_green_witness :
    classify 0 1 0 "two-sided" = "green" :=
  classify_other_preference_green 0 1 0 "two-sided" (by decide) (by decide)

/-- Claim C6: the rows that receive a color label are exactly the (clamped)
rows whose null hypothesis is defined, and when no row has a defined null
hypothesis no classification happens at all. -/
theorem chartColors_exactly_defined_null_hypothesis (y_min y_max : ℚ) (rows : List Row) :
    ((chartColors y_min y_max rows).map Prod.fst
        = (rows.map (clampRow y_min y_max)).filter (fun r => r.null_hypothesis.isSome))
      ∧ ((∀ r ∈ rows, r.null_hypothesis = none) → chartColors y_min y_max rows = []) := by
  constructor
  · unfold chartColors
    dsimp only
    split <;> rename_i h
    · simp [List.map_map, Function.comp_def]
    · simp only [List.any_eq_true, not_exists, not_and] at h
      refine ((List.filter_eq_nil_iff.mpr ?_).symm)
      intro a ha
      simpa using fun hs => (h a ha) hs
  · intro hall
    unfold chartColors
    dsimp only
    rw [if_neg]
    simp only [List.any_eq_true, not_exists, not_and]
    intro a ha
    rcases List.mem_map.mp ha with ⟨r, hr, rfl⟩
    simp [clampRow, hall r hr]

/-- Witness for C6 on a one-row table whose null hypothesis is missing. -/
theorem chartColors_exactly_defined_null_hypothesis_witness :
    chartColors 0 1 [⟨.finite 0, .finite 1, none, "increase"⟩] = [] :=
  (chartColors_exactly_defined_null_hypothesis 0 1
      [⟨.finite 0, .finite 1, none, "increase"⟩]).2
    (by intro r hr; simp at hr; simp [hr])

/-- Claim C7: bounds pass through `to_finite` before classification, so the
classifier always compares finite rationals (the clamped row type carries
`ℚ` bounds), and the classification outcome of a row with a non-finite bound
equals the outcome with that bound replaced by the corresponding caller-supplied
clamp value (`y_min` for negative infinity, `y_max` for positive infinity). -/
theorem classification_clamps_nonfinite_bounds (y_min y_max : ℚ) (r : Row) :
    (rowColor (clampRow y_min y_max { r with lower_bound := .negInf })
        = rowColor (clampRow y_min y_max { r with lower_bound := .finite y_min }))
      ∧ (rowColor (clampRow y_min y_max { r with lower_bound := .posInf })
        = rowColor (clampRow y_min y_max { r with lower_bound := .finite y_max }))
      ∧ (rowColor (clampRow y_min y_max { r with upper_bound := .negInf })
        = rowColor (clampRow y_min y_max { r with upper_bound := .finite y_min }))
      ∧ (rowColor (clampRow y_min y_max { r with upper_bound := .posInf })
        = rowColor (clampRow y_min y_max { r with upper_bound := .finite y_max })) :=
  ⟨rfl, rfl, rfl, rfl⟩

/-! ## Tooltip assembly (`add_tools`, bokeh_grapher.py lines 596-624) -/

/-- The unconditional first tooltip entry. -/
def groupEntry : String × String := ("group", "@color")

/-- The p-value tooltip entry. -/
def pEntry : String × String := ("p-value", "@p_value\x7b0.0000\x7d")

/-- The adjusted p-value tooltip entry. -/
def adjPEntry : String × String := ("adjusted p-value", "@adjusted_p\x7b0.0000\x7d")

/-- The reference-level tooltip entry. -/
def refEntry (axis_format_reference_level : String) : String × String :=
  ("reference level",
   "@reference_level: @reference_level_avg\x7b" ++ axis_format_reference_level ++ "\x7d")

/-- The ordinal-axis tooltip entry. -/
def ordEntry (ordinal_group_column : String) : String × String :=
  (ordinal_group_column, "@" ++ ordinal_group_column)

/-- The center-statistic tooltip entry. -/
def centerEntry (center_name axis_format : String) : String × String :=
  (center_name, "@" ++ center_name ++ "\x7b" ++ axis_format ++ "\x7d")

/-- The confidence-interval tooltip entry; its label carries the
`"adjusted "` label prefixed exactly when adjusted intervals are requested,
and its fields reference the adjusted or plain interval columns accordingly. -/
def ciEntry (use_adjusted_intervals : Bool) (axis_format : String) : String × String :=
  ((if use_adjusted_intervals then "adjusted " else "") ++ "confidence interval",
   "(@\x7b" ++ (if use_adjusted_intervals then ADJUSTED_LOWER else CI_LOWER)
     ++ "\x7d\x7b" ++ axis_format ++ "\x7d,"
     ++ " @\x7b" ++ (if use_adjusted_intervals then ADJUSTED_UPPER else CI_UPPER)
     ++ "\x7d\x7b" ++ axis_format ++ "\x7d)")

/-- The null-hypothesis tooltip entry. -/
def nhEntry (axis_format : String) : String × String :=
  ("null hypothesis", "@null_hyp\x7b" ++ axis_format ++ "\x7d")

/-- The tooltip list built by `add_tools`: `has_level_1` is
`"level_1" in df.columns`, `row_count` is `len(df)`, `has_null_hypothesis` is
`NULL_HYPOTHESIS in df.columns`; the segments and their concatenation order
follow lines 596-624 of the source. -/
def add_tools_tooltips (has_level_1 ordinal : Bool) (ordinal_group_column : String)
    (center_name : String) (row_count : Nat) (has_null_hypothesis use_adjusted_intervals : Bool)
    (axis_format axis_format_reference_level : String) : List (String × String) :=
  let ordinal_tool_tip := if ordinal = false then [] else [ordEntry ordinal_group_column]
  let p_value_tool_tip :=
    if center_name = DIFFERENCE then
      [pEntry] ++ (if 1 < row_count then [adjPEntry] else [])
    else []
  let nim_tool_tip := if has_null_hypothesis then [nhEntry axis_format] else []
  let reference_level_tool_tip :=
    if has_level_1 then [refEntry axis_format_reference_level] else []
  [groupEntry]
    ++ reference_level_tool_tip
    ++ ordinal_tool_tip
    ++ [centerEntry center_name axis_format]
    ++ [ciEntry use_adjusted_intervals axis_format]
    ++ p_value_tool_tip
    ++ nim_tool_tip

/-- Modelled from the spec: the `build_tooltip_spec` contract of §4.2, in which
every entry — the group entry included ("group label — always included if
grouping exists") — is conditional on its presence flag.  Used to compare the
spec's words with the source's `add_tools_tooltips`. -/
def build_tooltip_spec (has_group has_reference_level is_ordinal : Bool)
    (ordinal_group_column center_field_name : String) (row_count : Nat)
    (has_null_hypothesis use_adjusted_intervals : Bool)
    (numeric_format reference_format : String) : List (String × String) :=
  (if has_group then [groupEntry] else [])
    ++ (if has_reference_level then [refEntry reference_format] else [])
    ++ (if is_ordinal then [ordEntry ordinal_group_column] else [])
    ++ [centerEntry center_field_name numeric_format]
    ++ [ciEntry use_adjusted_intervals numeric_format]
    ++ (if center_field_name = DIFFERENCE then
          [pEntry] ++ (if 1 < row_count then [adjPEntry] else [])
        else [])
    ++ (if has_null_hypothesis then [nhEntry numeric_format] else [])

/-- The p-value entry differs from every center entry, whatever the center
column name and the numeric format. -/
theorem pEntry_ne_centerEntry (cn f : String) : pEntry ≠ centerEntry cn f := by
  intro h
  simp only [pEntry, centerEntry, Prod.mk.injEq] at h
  obtain ⟨h1, h2⟩ := h
  rw [← h1] at h2
  have h3 := congrArg String.data h2
  simp [String.data_append] at h3

/-- The adjusted p-value entry differs from every center entry. -/
theorem adjPEntry_ne_centerEntry (cn f : String) : adjPEntry ≠ centerEntry cn f := by
  intro h
  simp only [adjPEntry, centerEntry, Prod.mk.injEq] at h
  obtain ⟨h1, h2⟩ := h
  rw [← h1] at h2
  have h3 := congrArg String.data h2
  simp [String.data_append] at h3

/-- The p-value entry differs from every ordinal-axis entry. -/
theorem pEntry_ne_ordEntry (oc : String) : pEntry ≠ ordEntry oc := by
  intro h
  simp only [pEntry, ordEntry, Prod.mk.injEq] at h
  obtain ⟨h1, h2⟩ := h
  rw [← h1] at h2
  exact absurd h2 (by decide)

/-- The adjusted p-value entry differs from every ordinal-axis entry. -/
theorem adjPEntry_ne_ordEntry (oc : String) : adjPEntry ≠ ordEntry oc := by
  intro h
  simp only [adjPEntry, ordEntry, Prod.mk.injEq] at h
  obtain ⟨h1, h2⟩ := h
  rw [← h1] at h2
  exact absurd h2 (by decide)

/-- The p-value entry differs from every reference-level entry. -/
theorem pEntry_ne_refEntry (fr : String) : pEntry ≠ refEntry fr := by
  intro h
  have h1 := congrArg Prod.fst h
  simp [pEntry, refEntry] at h1

/-- The adjusted p-value entry differs from every reference-level entry. -/
theorem adjPEntry_ne_refEntry (fr : String) : adjPEntry ≠ refEntry fr := by
  intro h
  have h1 := congrArg Prod.fst h
  simp [adjPEntry, refEntry] at h1

/-- The p-value entry differs from every null-hypothesis entry. -/
theorem pEntry_ne_nhEntry (f : String) : pEntry ≠ nhEntry f := by
  intro h
  have h1 := congrArg Prod.fst h
  simp [pEntry, nhEntry] at h1

/-- The adjusted p-value entry differs from every null-hypothesis entry. -/
theorem adjPEntry_ne_nhEntry (f : String) : adjPEntry ≠ nhEntry f := by
  intro h
  have h1 := congrArg Prod.fst h
  simp [adjPEntry, nhEntry] at h1

/-- The p-value entry differs from every confidence-interval entry. -/
theorem pEntry_ne_ciEntry (adj : Bool) (f : String) : pEntry ≠ ciEntry adj f := by
  cases adj <;>
  · intro h
    have h1 := congrArg Prod.fst h
    simp [pEntry, ciEntry] at h1

/-- The adjusted p-value entry differs from every confidence-interval entry. -/
theorem adjPEntry_ne_ciEntry (adj : Bool) (f : String) : adjPEntry ≠ ciEntry adj f := by
  cases adj <;>
  · intro h
    have h1 := congrArg Prod.fst h
    simp [adjPEntry, ciEntry] at h1

/-- The p-value entry differs from the group entry. -/
theorem pEntry_ne_groupEntry : pEntry ≠ groupEntry := by decide

/-- The adjusted p-value entry differs from the group entry. -/
theorem adjPEntry_ne_groupEntry : adjPEntry ≠ groupEntry := by decide

/-- The adjusted p-value entry differs from the p-value entry. -/
theorem adjPEntry_ne_pEntry : adjPEntry ≠ pEntry := by decide

/-- Claim C10: the `("group", "@color")` entry is the unconditional first entry
of every tooltip spec, for all flag combinations; the spec is never empty. -/
theorem tooltips_group_entry_first (hl ord : Bool) (oc cn : String) (rc : Nat)
    (hn adj : Bool) (f fr : String) :
    (add_tools_tooltips hl ord oc cn rc hn adj f fr).head? = some ("group", "@color")
      ∧ add_tools_tooltips hl ord oc cn rc hn adj f fr ≠ [] := by
  unfold add_tools_tooltips
  dsimp only
  constructor
  · rfl
  · simp [groupEntry]

/-- Counterexample to claim C3 as stated: with the grouping flag off (and the
other flags as in the spec's example) the spec-mandated tooltip list omits the
group entry, but the assembler in the source still emits it as its first
entry, so the two lists differ. -/
theorem tooltips_group_flag_counterexample :
    add_tools_tooltips false false "date" DIFFERENCE 5 true false "0.00%" "0.00"
        ≠ build_tooltip_spec false false false "date" DIFFERENCE 5 true false "0.00%" "0.00"
      ∧ ("group", "@color")
        ∈ add_tools_tooltips false false "date" DIFFERENCE 5 true false "0.00%" "0.00"
      ∧ ("group", "@color")
        ∉ build_tooltip_spec false false false "date" DIFFERENCE 5 true false "0.00%" "0.00" := by
  refine ⟨by decide, by decide, by decide⟩

/-- Amended claim C3: the assembler produces the entries in the enumerated
order, every entry other than the group label present exactly when its flag
holds, and the group label included unconditionally (as if the grouping flag
always held); equivalently it agrees with the spec's `build_tooltip_spec` at
`has_group = true` for every flag combination.  At the spec's example flags the
output is exactly the six listed entries in order. -/
theorem tooltips_match_spec_with_group_always (hl ord : Bool) (oc cn : String) (rc : Nat)
    (hn adj : Bool) (f fr : String) :
    (add_tools_tooltips hl ord oc cn rc hn adj f fr
        = build_tooltip_spec true hl ord oc cn rc hn adj f fr)
      ∧ ((ciEntry true f).1 = "adjusted confidence interval"
          ∧ (ciEntry false f).1 = "confidence interval")
      ∧ add_tools_tooltips false false "date" DIFFERENCE 5 true false "0.00%" "0.00"
        = [("group", "@color"),
           ("difference", "@difference\x7b0.00%\x7d"),
           ("confidence interval",
            "(@\x7bci_lower\x7d\x7b0.00%\x7d, @\x7bci_upper\x7d\x7b0.00%\x7d)"),
           ("p-value", "@p_value\x7b0.0000\x7d"),
           ("adjusted p-value", "@adjusted_p\x7b0.0000\x7d"),
           ("null hypothesis", "@null_hyp\x7b0.00%\x7d")] := by
  refine ⟨?_, ⟨rfl, rfl⟩, by decide⟩
  cases ord <;> simp [add_tools_tooltips, build_tooltip_spec]

/-- Claim C4: the tooltip spec is a deterministic function of the presence
flags with length fixed by them, and each single presence flag of the source
(reference level, ordinal axis, null hypothesis, and the `len(df) > 1` gate of
the adjusted p-value under a difference center) toggles exactly its own entry:
the spec with the flag on splits as `l₁ ++ entry :: l₂` and with the flag off
it is `l₁ ++ l₂`, all other entries unchanged and in order. -/
theorem tooltips_single_flag_removal (hl ord : Bool) (oc cn : String) (rc : Nat)
    (hn adj : Bool) (f fr : String) :
    ((add_tools_tooltips hl ord oc cn rc hn adj f fr).length
        = 3 + (if hl then 1 else 0) + (if ord then 1 else 0)
          + (if cn = DIFFERENCE then (if 1 < rc then 2 else 1) else 0)
          + (if hn then 1 else 0))
      ∧ (∃ l₁ l₂, add_tools_tooltips true ord oc cn rc hn adj f fr = l₁ ++ refEntry fr :: l₂
          ∧ add_tools_tooltips false ord oc cn rc hn adj f fr = l₁ ++ l₂)
      ∧ (∃ l₁ l₂, add_tools_tooltips hl true oc cn rc hn adj f fr = l₁ ++ ordEntry oc :: l₂
          ∧ add_tools_tooltips hl false oc cn rc hn adj f fr = l₁ ++ l₂)
      ∧ (∃ l₁ l₂, add_tools_tooltips hl ord oc cn rc true adj f fr = l₁ ++ nhEntry f :: l₂
          ∧ add_tools_tooltips hl ord oc cn rc false adj f fr = l₁ ++ l₂)
      ∧ (∀ rc₁ rc₂ : Nat, rc₁ ≤ 1 → 1 < rc₂ → ∃ l₁ l₂,
          add_tools_tooltips hl ord oc DIFFERENCE rc₂ hn adj f fr = l₁ ++ adjPEntry :: l₂
          ∧ add_tools_tooltips hl ord oc DIFFERENCE rc₁ hn adj f fr = l₁ ++ l₂) := by
  refine ⟨?_, ?_, ?_, ?_, ?_⟩
  · cases hl <;> cases ord <;> cases hn <;>
      by_cases hcn : cn = DIFFERENCE <;> by_cases hrc : 1 < rc <;>
      simp [add_tools_tooltips, hcn, hrc]
  · refine ⟨[groupEntry],
      (if ord = false then [] else [ordEntry oc]) ++ [centerEntry cn f]
        ++ [ciEntry adj f]
        ++ (if cn = DIFFERENCE then [pEntry] ++ (if 1 < rc then [adjPEntry] else []) else [])
        ++ (if hn then [nhEntry f] else []), ?_, ?_⟩ <;>
      simp [add_tools_tooltips]
  · refine ⟨groupEntry :: (if hl then [refEntry fr] else []),
      [centerEntry cn f] ++ [ciEntry adj f]
        ++ (if cn = DIFFERENCE then [pEntry] ++ (if 1 < rc then [adjPEntry] else []) else [])
        ++ (if hn then [nhEntry f] else []), ?_, ?_⟩ <;>
      simp [add_tools_tooltips]
  · refine ⟨groupEntry :: ((if hl then [refEntry fr] else [])
        ++ (if ord = false then [] else [ordEntry oc]) ++ [centerEntry cn f]
        ++ [ciEntry adj f]
        ++ (if cn = DIFFERENCE then [pEntry] ++ (if 1 < rc then [adjPEntry] else []) else [])),
      [], ?_, ?_⟩ <;>
      simp [add_tools_tooltips]
  · intro rc₁ rc₂ h₁ h₂
    refine ⟨groupEntry :: ((if hl then [refEntry fr] else [])
        ++ (if ord = false then [] else [ordEntry oc]) ++ [centerEntry DIFFERENCE f]
        ++ [ciEntry adj f] ++ [pEntry]),
      (if hn then [nhEntry f] else []), ?_, ?_⟩ <;>
      simp [add_tools_tooltips, h₂, Nat.not_lt.mpr h₁]

/-- Witness for C4 instantiating the adjusted p-value conjunct at
row counts 1 and 2. -/
theorem tooltips_single_flag_removal_witness :
    ∃ l₁ l₂,
      add_tools_tooltips false false "date" DIFFERENCE 2 false false "0.00%" "0.00"
          = l₁ ++ adjPEntry :: l₂
        ∧ add_tools_tooltips false false "date" DIFFERENCE 1 false false "0.00%" "0.00"
          = l₁ ++ l₂ :=
  (tooltips_single_flag_removal false false "date" DIFFERENCE 2 false false
      "0.00%" "0.00").2.2.2.2 1 2 (by decide) (by decide)

/-- Claim C5: the tooltip spec contains the p-value entry iff the center
statistic is the difference; it contains the adjusted p-value entry iff the
center statistic is the difference and the row count exceeds one, and then the
adjusted p-value entry immediately follows the p-value entry. -/
theorem tooltips_p_value_entries (hl ord : Bool) (oc cn : String) (rc : Nat)
    (hn adj : Bool) (f fr : String) :
    (pEntry ∈ add_tools_tooltips hl ord oc cn rc hn adj f fr ↔ cn = DIFFERENCE)
      ∧ (adjPEntry ∈ add_tools_tooltips hl ord oc cn rc hn adj f fr
          ↔ cn = DIFFERENCE ∧ 1 < rc)
      ∧ (cn = DIFFERENCE → 1 < rc → ∃ l₁ l₂,
          add_tools_tooltips hl ord oc cn rc hn adj f fr
            = l₁ ++ pEntry :: adjPEntry :: l₂) := by
  refine ⟨?_, ?_, ?_⟩
  · cases hl <;> cases ord <;> cases hn <;>
      by_cases hcn : cn = DIFFERENCE <;> by_cases hrc : 1 < rc <;>
      simp [add_tools_tooltips, hcn, hrc, pEntry_ne_centerEntry,
        pEntry_ne_ordEntry, pEntry_ne_refEntry, pEntry_ne_nhEntry, pEntry_ne_ciEntry,
        pEntry_ne_groupEntry]
  · cases hl <;> cases ord <;> cases hn <;>
      by_cases hcn : cn = DIFFERENCE <;> by_cases hrc : 1 < rc <;>
      simp [add_tools_tooltips, hcn, hrc, adjPEntry_ne_centerEntry,
        adjPEntry_ne_ordEntry, adjPEntry_ne_refEntry, adjPEntry_ne_nhEntry,
        adjPEntry_ne_ciEntry, adjPEntry_ne_groupEntry, adjPEntry_ne_pEntry]
  · intro hcn hrc
    subst hcn
    refine ⟨groupEntry :: ((if hl then [refEntry fr] else [])
        ++ (if ord = false then [] else [ordEntry oc]) ++ [centerEntry DIFFERENCE f]
        ++ [ciEntry adj f]),
      (if hn then [nhEntry f] else []), ?_⟩
    simp [add_tools_tooltips, hrc]

/-- Witness for C5 at the spec's example flags: the p-value entry is present
because the center statistic is the difference. -/
theorem tooltips_p_value_entries_witness :
    pEntry ∈ add_tools_tooltips false false "date" DIFFERENCE 5 true false "0.00%" "0.00" :=
  (tooltips_p_value_entries false false "date" DIFFERENCE 5 true false
      "0.00%" "0.00").1.mpr rfl

/-! ## ChartGrid.show (chartgrid.py lines 37-48) -/

/-- A chart object stored in `ChartGrid.charts`, tagged by its runtime type:
a chartify `Chart`, a bokeh `figure`, or any other object (carrying the string
printed for its type). -/
inductive ChartObj where
  | chartifyChart (id : Nat)
  | bokehFigure (id : Nat)
  | other (descr : String)
deriving DecidableEq, Repr

/-- An observable rendering action performed by `ChartGrid.show`. -/
inductive RenderEvent where
  | chartifyShow (id : Nat) (format : String)
  | displayPng (id : Nat)
  | bokehShow (id : Nat)
  | printUnsupported (descr : String)
deriving DecidableEq, Repr

/-- The collection of charts held by a `ChartGrid`. -/
structure ChartGrid where
  charts : List ChartObj
deriving DecidableEq, Repr

/-- The `for chart in self.charts` loop of `ChartGrid.show`: one rendering
action per chart, in list order; a chartify chart is shown with the requested
format, a bokeh figure is exported as a PNG when the format is `"png"` and
shown otherwise, and any other object falls through to the
`"Unsupported chart type"` print instead of raising. -/
def showLoop (format : String) : List ChartObj → List RenderEvent
  | [] => []
  | chart :: rest =>
    (match chart with
      | .chartifyChart i => RenderEvent.chartifyShow i format
      | .bokehFigure i =>
          if format = "png" then RenderEvent.displayPng i else RenderEvent.bokehShow i
      | .other d => RenderEvent.printUnsupported d) :: showLoop format rest

/-- `ChartGrid.show` runs the loop over the stored charts; the method never
mutates `self.charts`, so the resulting grid is returned unchanged. -/
def ChartGrid.show (g : ChartGrid) (format : String) : ChartGrid × List RenderEvent :=
  (g, showLoop format g.charts)

/-- The per-chart dispatch of `ChartGrid.show`, used to state that the loop
acts elementwise. -/
def dispatchChart (format : String) (chart : ChartObj) : RenderEvent :=
  match chart with
  | .chartifyChart i => RenderEvent.chartifyShow i format
  | .bokehFigure i =>
      if format = "png" then RenderEvent.displayPng i else RenderEvent.bokehShow i
  | .other d => RenderEvent.printUnsupported d

/-- Claim C8: `ChartGrid.show` leaves the chart list unchanged and emits, in
list order, one dispatch-by-runtime-type action per chart: chartify charts are
shown with the requested format, bokeh figures are exported as PNG exactly when
the format is `"png"` and shown otherwise, and every chart of any other type
produces the unsupported-type print (no error). -/
theorem chartgrid_show_dispatch (g : ChartGrid) (format : String) :
    ((g.show format).1 = g)
      ∧ ((g.show format).2 = g.charts.map (dispatchChart format))
      ∧ (∀ i, dispatchChart format (.chartifyChart i) = .chartifyShow i format)
      ∧ (∀ i, dispatchChart format (.bokehFigure i)
          = if format = "png" then .displayPng i else .bokehShow i)
      ∧ (∀ d, dispatchChart format (.other d) = .printUnsupported d) := by
  refine ⟨rfl, ?_, fun i => rfl, fun i => rfl, fun d => rfl⟩
  show showLoop format g.charts = g.charts.map (dispatchChart format)
  induction g.charts with
  | nil => rfl
  | cons c rest ih => cases c <;> simp [showLoop, dispatchChart, ih]

end Confidence
